import Mathlib

/-!
Verification of the preupdate-hook core of `rusqlite`
(`src/preupdate_hook.rs`), as a shallow embedding.

Modelling conventions:
* native pointers (the `sqlite3` handle, `sqlite3_value` handles, boxed
  closure contexts) are `Nat`; a nullable pointer is `Option Nat`
  (`none` = null);
* C `int` and `i64` are `Int`;
* a Rust `&str`/byte slice obtained from a C string is a `List Nat` of
  its bytes (the nul terminator already stripped, as
  `CStr::to_bytes` does);
* the database engine's preupdate query primitives are an oracle
  record `Engine`; operations that may call into the engine return,
  next to their result, the list of engine calls they perform, so that
  "performs no engine call" is expressible;
* a Rust panic is the `Except.error` branch: a closure that may panic
  is a function into `Except String Unit`, and the trampoline's
  overall outcome is `Except String TrampolineResult`, where
  `Except.error` stands for a panic escaping the `extern "C"` boundary
  (process-fatal) and `Except.ok` is a normal return to the engine.
-/

namespace Rusqlite

/-- The row-change action classification.  Modelled from the spec:
`Action` and its `From<i32>` instance live in `src/hooks.rs`, which is
not part of the sources here; the spec (§3) defines it as the
enumeration `{Insert, Delete, Update, Unknown}` mapped 1:1 from the
native integer code. -/
inductive Action where
  | UNKNOWN
  | SQLITE_DELETE
  | SQLITE_INSERT
  | SQLITE_UPDATE
deriving DecidableEq, Repr

/-- Modelled from the spec: the mapping from the engine's native
integer action code to `Action` (`From<i32> for Action` in
`src/hooks.rs`, absent from the sources).  The engine's documented
codes are `SQLITE_DELETE = 9`, `SQLITE_INSERT = 18`,
`SQLITE_UPDATE = 23`; every other code maps to `UNKNOWN`. -/
def Action.fromCode (code : Int) : Action :=
  if code = 9 then Action.SQLITE_DELETE
  else if code = 18 then Action.SQLITE_INSERT
  else if code = 23 then Action.SQLITE_UPDATE
  else Action.UNKNOWN

/-- One call into the engine's preupdate query primitives, recorded so
that theorems can speak about which engine calls an operation makes. -/
inductive EngineCall where
  | count (db : Nat)
  | depth (db : Nat)
  | oldValue (db : Nat) (i : Int)
  | newValue (db : Nat) (i : Int)
deriving DecidableEq, Repr

/-- The engine oracle: the four `sqlite3_preupdate_*` query primitives
the accessors forward to.  `preupdate_old`/`preupdate_new` write an
opaque `sqlite3_value` pointer (here a `Nat`) for any index the caller
passes; out-of-range behaviour is whatever the oracle says. -/
structure Engine where
  preupdate_count : Nat → Int
  preupdate_depth : Nat → Int
  preupdate_old : Nat → Int → Nat
  preupdate_new : Nat → Int → Nat

/-- `ValueRef::from_value` applied to an opaque `sqlite3_value`
pointer.  Value decoding lives in the shared `types` module outside
this core, so it is kept opaque-but-injective: the wrapper remembers
exactly which pointer it decoded. -/
inductive ValueRef where
  | from_value (p_value : Nat)
deriving DecidableEq, Repr

/-- `PreUpdateOldValueAccessor`: non-owning `sqlite3` handle plus the
old row id captured at construction. -/
structure PreUpdateOldValueAccessor where
  db : Nat
  old_row_id : Int
deriving DecidableEq, Repr

/-- `PreUpdateOldValueAccessor::get_column_count`: forwards to
`sqlite3_preupdate_count(self.db)`. -/
def PreUpdateOldValueAccessor.get_column_count (e : Engine)
    (a : PreUpdateOldValueAccessor) : Int × List EngineCall :=
  (e.preupdate_count a.db, [EngineCall.count a.db])

/-- `PreUpdateOldValueAccessor::get_query_depth`: forwards to
`sqlite3_preupdate_depth(self.db)`. -/
def PreUpdateOldValueAccessor.get_query_depth (e : Engine)
    (a : PreUpdateOldValueAccessor) : Int × List EngineCall :=
  (e.preupdate_depth a.db, [EngineCall.depth a.db])

/-- `PreUpdateOldValueAccessor::get_old_row_id`: returns the captured
field; the body is `self.old_row_id`, no engine call.  The `Engine`
argument is taken (and ignored) so that the empty call trace states
that no engine call happens. -/
def PreUpdateOldValueAccessor.get_old_row_id (_e : Engine)
    (a : PreUpdateOldValueAccessor) : Int × List EngineCall :=
  (a.old_row_id, [])

/-- `PreUpdateOldValueAccessor::get_old_column_value`: calls
`sqlite3_preupdate_old(self.db, i, &mut p_value)` and wraps the
written pointer with `ValueRef::from_value`.  No bounds check of its
own: `i` is forwarded unchanged for every `i`. -/
def PreUpdateOldValueAccessor.get_old_column_value (e : Engine)
    (a : PreUpdateOldValueAccessor) (i : Int) : ValueRef × List EngineCall :=
  (ValueRef.from_value (e.preupdate_old a.db i), [EngineCall.oldValue a.db i])

/-- `PreUpdateNewValueAccessor`: non-owning `sqlite3` handle plus the
new row id captured at construction. -/
structure PreUpdateNewValueAccessor where
  db : Nat
  new_row_id : Int
deriving DecidableEq, Repr

/-- `PreUpdateNewValueAccessor::get_column_count`: forwards to
`sqlite3_preupdate_count(self.db)`. -/
def PreUpdateNewValueAccessor.get_column_count (e : Engine)
    (a : PreUpdateNewValueAccessor) : Int × List EngineCall :=
  (e.preupdate_count a.db, [EngineCall.count a.db])

/-- `PreUpdateNewValueAccessor::get_query_depth`: forwards to
`sqlite3_preupdate_depth(self.db)`. -/
def PreUpdateNewValueAccessor.get_query_depth (e : Engine)
    (a : PreUpdateNewValueAccessor) : Int × List EngineCall :=
  (e.preupdate_depth a.db, [EngineCall.depth a.db])

/-- `PreUpdateNewValueAccessor::get_new_row_id`: returns the captured
field; no engine call. -/
def PreUpdateNewValueAccessor.get_new_row_id (_e : Engine)
    (a : PreUpdateNewValueAccessor) : Int × List EngineCall :=
  (a.new_row_id, [])

/-- `PreUpdateNewValueAccessor::get_new_column_value`: calls
`sqlite3_preupdate_new(self.db, i, &mut p_value)` and wraps the
written pointer with `ValueRef::from_value`.  No bounds check of its
own: `i` is forwarded unchanged for every `i`. -/
def PreUpdateNewValueAccessor.get_new_column_value (e : Engine)
    (a : PreUpdateNewValueAccessor) (i : Int) : ValueRef × List EngineCall :=
  (ValueRef.from_value (e.preupdate_new a.db i), [EngineCall.newValue a.db i])

/-- `PreUpdateCase`: the tagged union handed to the registered
closure. -/
inductive PreUpdateCase where
  | Insert (acc : PreUpdateNewValueAccessor)
  | Delete (acc : PreUpdateOldValueAccessor)
  | Update (old_value_accessor : PreUpdateOldValueAccessor)
      (new_value_accessor : PreUpdateNewValueAccessor)
deriving DecidableEq, Repr

/-- `impl From<PreUpdateCase> for Action` (src/preupdate_hook.rs,
lines 26-34). -/
def Action.fromPreUpdateCase (puc : PreUpdateCase) : Action :=
  match puc with
  | PreUpdateCase.Insert _ => Action.SQLITE_INSERT
  | PreUpdateCase.Delete _ => Action.SQLITE_DELETE
  | PreUpdateCase.Update _ _ => Action.SQLITE_UPDATE

/-- A UTF-8 continuation byte (`0x80..=0xBF`). -/
def isCont (b : Nat) : Bool := 0x80 ≤ b && b ≤ 0xBF

/-- UTF-8 validity of a byte sequence, per RFC 3629 (shortest-form,
surrogates excluded, range ≤ U+10FFFF): the acceptance condition of
Rust's `str::from_utf8`. -/
def utf8Valid : List Nat → Bool
  | [] => true
  | b :: rest =>
    if b ≤ 0x7F then utf8Valid rest
    else if 0xC2 ≤ b && b ≤ 0xDF then
      match rest with
      | c1 :: rest1 => isCont c1 && utf8Valid rest1
      | [] => false
    else if b = 0xE0 then
      match rest with
      | c1 :: c2 :: rest2 =>
        (0xA0 ≤ c1 && c1 ≤ 0xBF) && isCont c2 && utf8Valid rest2
      | _ => false
    else if (0xE1 ≤ b && b ≤ 0xEC) || b = 0xEE || b = 0xEF then
      match rest with
      | c1 :: c2 :: rest2 => isCont c1 && isCont c2 && utf8Valid rest2
      | _ => false
    else if b = 0xED then
      match rest with
      | c1 :: c2 :: rest2 =>
        (0x80 ≤ c1 && c1 ≤ 0x9F) && isCont c2 && utf8Valid rest2
      | _ => false
    else if b = 0xF0 then
      match rest with
      | c1 :: c2 :: c3 :: rest3 =>
        (0x90 ≤ c1 && c1 ≤ 0xBF) && isCont c2 && isCont c3 && utf8Valid rest3
      | _ => false
    else if 0xF1 ≤ b && b ≤ 0xF3 then
      match rest with
      | c1 :: c2 :: c3 :: rest3 =>
        isCont c1 && isCont c2 && isCont c3 && utf8Valid rest3
      | _ => false
    else if b = 0xF4 then
      match rest with
      | c1 :: c2 :: c3 :: rest3 =>
        (0x80 ≤ c1 && c1 ≤ 0x8F) && isCont c2 && isCont c3 && utf8Valid rest3
      | _ => false
    else false

/-- `str::from_utf8` on the bytes of a C string: `Ok` with the (byte
content of the) string when the bytes are valid UTF-8, `Err` with a
`Utf8Error` (carried as `Unit`) otherwise. -/
def str_from_utf8 (bs : List Nat) : Except Unit (List Nat) :=
  if utf8Valid bs then Except.ok bs else Except.error ()

/-- What one trampoline invocation did inside its `catch_unwind`
region, observed at the normal return to the engine:
`invoked` records the arguments the registered closure was called
with (`none` when the closure was never reached), and `caught`
records the panic message swallowed by `catch_unwind` (`none` when
nothing panicked). -/
structure TrampolineResult where
  invoked : Option (Action × List Nat × List Nat × PreUpdateCase)
  caught : Option String
deriving DecidableEq, Repr

/-- The `match action` at src/preupdate_hook.rs lines 154-174 that
builds `preupdate_hook_functions`: `none` stands for the
`_ => todo!()` arm (a panic raised outside `catch_unwind`). -/
def preupdateCaseOfAction (action : Action) (sqlite : Nat)
    (old_row_id new_row_id : Int) : Option PreUpdateCase :=
  match action with
  | Action.SQLITE_INSERT =>
      some (PreUpdateCase.Insert { db := sqlite, new_row_id := new_row_id })
  | Action.SQLITE_DELETE =>
      some (PreUpdateCase.Delete { db := sqlite, old_row_id := old_row_id })
  | Action.SQLITE_UPDATE =>
      some (PreUpdateCase.Update { db := sqlite, old_row_id := old_row_id }
        { db := sqlite, new_row_id := new_row_id })
  | Action.UNKNOWN => none

/-- The trampoline `call_boxed_closure` (src/preupdate_hook.rs lines
130-185).  `boxed_hook` is the registered closure reached through
`p_arg`; it returns `Except.error msg` when it panics with message
`msg`.  The overall result is `Except.error _` exactly when a panic
escapes the `extern "C"` boundary (the `todo!()` arm, which sits
before and outside `catch_unwind` and is process-fatal), and
`Except.ok r` when the trampoline returns normally to the engine,
with `r` recording what happened inside the `catch_unwind` region:
the two `.expect` calls on the decoded names run inside it, so a
decode failure panics there, is caught, and still yields a normal
return with `invoked = none`. -/
def call_boxed_closure
    (boxed_hook : Action → List Nat → List Nat → PreUpdateCase → Except String Unit)
    (sqlite : Nat) (action_code : Int) (db_str tbl_str : List Nat)
    (old_row_id new_row_id : Int) : Except String TrampolineResult :=
  let action := Action.fromCode action_code
  let db_name : Except Unit (List Nat) := str_from_utf8 db_str
  let tbl_name : Except Unit (List Nat) := str_from_utf8 tbl_str
  match preupdateCaseOfAction action sqlite old_row_id new_row_id with
  | none => Except.error "not yet implemented"
  | some preupdate_hook_functions =>
      Except.ok
        (match db_name with
          | Except.error _ => { invoked := none, caught := some "illegal db name" }
          | Except.ok dbn =>
            match tbl_name with
            | Except.error _ =>
                { invoked := none, caught := some "illegal table name" }
            | Except.ok tbn =>
              match boxed_hook action dbn tbn preupdate_hook_functions with
              | Except.error p =>
                  { invoked := some (action, dbn, tbn, preupdate_hook_functions),
                    caught := some p }
              | Except.ok _ =>
                  { invoked := some (action, dbn, tbn, preupdate_hook_functions),
                    caught := none })

/-- The case the registered closure was actually called with during
one trampoline invocation, when it was called at all. -/
def passedCase (r : Except String TrampolineResult) : Option PreUpdateCase :=
  match r with
  | Except.ok t =>
    match t.invoked with
    | some (_, _, _, pc) => some pc
    | none => none
  | Except.error _ => none

/-- The hook-registry state of `InnerConnection`, together with the
engine-side preupdate hook slot it drives.  A concrete closure type
`F` and its monomorphized release function `free_boxed_hook::<F>` are
identified by a `Nat` tag; a boxed-closure context pointer is a `Nat`.
`engine_trampoline`/`engine_ctx` are what
`sqlite3_preupdate_hook` currently holds (`none` = null), and
`free_preupdate_hook` is the connection's stored release function
(`None` = absent). -/
structure InnerConnection where
  engine_trampoline : Option Nat
  engine_ctx : Option Nat
  free_preupdate_hook : Option Nat
deriving DecidableEq, Repr

/-- `InnerConnection::preupdate_hook` (src/preupdate_hook.rs lines
126-212).  `hook` is `some boxed` with the freshly boxed closure's
context pointer, or `none`; `tag` identifies the concrete closure
type `F` of this call (and hence `free_boxed_hook::<F>` and
`call_boxed_closure::<F>`).  Returns the new state and the list of
release calls performed, each as (release-function tag, released
context pointer).  Step by step as in the source: compute
`free_preupdate_hook` for the new hook; call
`sqlite3_preupdate_hook`, which installs the new trampoline/context
and returns the previously installed context; if that is non-null and
`self.free_preupdate_hook` (still the previously stored one) is
`Some`, release the previous context with it; finally store the new
release function. -/
def InnerConnection.preupdate_hook (c : InnerConnection)
    (hook : Option Nat) (tag : Nat) : InnerConnection × List (Nat × Nat) :=
  let free_preupdate_hook : Option Nat :=
    if hook.isSome then some tag else none
  let previous_hook : Option Nat := c.engine_ctx
  let engine_trampoline : Option Nat :=
    match hook with
    | some _ => some tag
    | none => none
  let releases : List (Nat × Nat) :=
    match previous_hook with
    | some p =>
      match c.free_preupdate_hook with
      | some t => [(t, p)]
      | none => []
    | none => []
  ({ engine_trampoline := engine_trampoline,
     engine_ctx := hook,
     free_preupdate_hook := free_preupdate_hook }, releases)

/-- The tag standing for the concrete type
`fn(Action, &str, &str, &PreUpdateCase)` that
`remove_preupdate_hook` instantiates `preupdate_hook` at. -/
def fnHookTag : Nat := 0

/-- `InnerConnection::remove_preupdate_hook` (src/preupdate_hook.rs
lines 122-124): `self.preupdate_hook(None::<fn(Action, &str, &str,
&PreUpdateCase)>)`. -/
def InnerConnection.remove_preupdate_hook (c : InnerConnection) :
    InnerConnection × List (Nat × Nat) :=
  c.preupdate_hook none fnHookTag

/-- A registered closure that observes its arguments and returns
normally (used to instantiate universally quantified theorems at a
concrete input). -/
def hookOk : Action → List Nat → List Nat → PreUpdateCase → Except String Unit :=
  fun _ _ _ _ => Except.ok ()

/-- A registered closure that panics on every invocation. -/
def hookBoom : Action → List Nat → List Nat → PreUpdateCase → Except String Unit :=
  fun _ _ _ _ => Except.error "boom"

/-- Helper: `str::from_utf8` succeeds, returning the bytes unchanged,
exactly on valid UTF-8 input. -/
theorem str_from_utf8_ok (bs : List Nat) (h : utf8Valid bs = true) :
    str_from_utf8 bs = Except.ok bs := by
  simp [str_from_utf8, h]

/-- Helper: `str::from_utf8` fails on invalid UTF-8 input. -/
theorem str_from_utf8_err (bs : List Nat) (h : utf8Valid bs = false) :
    str_from_utf8 bs = Except.error () := by
  simp [str_from_utf8, h]

/-- C1: when the registry currently owns a closure (engine context
`p` installed, release function `t` stored), any call to
`preupdate_hook` — registering a new closure or removing — performs
exactly one release call, on the previously owned context `p`, with
the previously stored release function `t`; and the release calls do
not depend on the release function `tag` being captured for the new
closure in the same call. -/
theorem preupdate_hook_releases_previous_exactly_once
    (c : InnerConnection) (hook : Option Nat) (tag tag2 p t : Nat)
    (hctx : c.engine_ctx = some p) (hfree : c.free_preupdate_hook = some t) :
    (c.preupdate_hook hook tag).2 = [(t, p)] ∧
    (c.preupdate_hook hook tag).2 = (c.preupdate_hook hook tag2).2 := by
  simp [InnerConnection.preupdate_hook, hctx, hfree]

/-- Witness for C1 at a concrete owning state: replacing the closure
releases context 7 with the previously stored release function 3,
never the newly captured 4. -/
theorem preupdate_hook_releases_previous_exactly_once_witness :
    (InnerConnection.preupdate_hook ⟨some 1, some 7, some 3⟩ (some 9) 4).2 = [(3, 7)] ∧
    (InnerConnection.preupdate_hook ⟨some 1, some 7, some 3⟩ (some 9) 4).2 =
      (InnerConnection.preupdate_hook ⟨some 1, some 7, some 3⟩ (some 9) 5).2 :=
  preupdate_hook_releases_previous_exactly_once ⟨some 1, some 7, some 3⟩
    (some 9) 4 5 7 3 rfl rfl

/-- C2: for every trampoline invocation with validly encoded names,
the `PreUpdateCase` passed to the registered closure matches the
decoded action: Insert yields the `Insert` variant carrying only a
new-value accessor bound to the new row id, Delete the `Delete`
variant carrying only an old-value accessor bound to the old row id,
Update the `Update` variant carrying both; all accessors bound to the
database handle of the invocation. -/
theorem trampoline_case_matches_action
    (hook : Action → List Nat → List Nat → PreUpdateCase → Except String Unit)
    (sqlite : Nat) (code : Int) (db_str tbl_str : List Nat) (o n : Int)
    (hdb : utf8Valid db_str = true) (htbl : utf8Valid tbl_str = true) :
    (Action.fromCode code = Action.SQLITE_INSERT →
      passedCase (call_boxed_closure hook sqlite code db_str tbl_str o n) =
        some (PreUpdateCase.Insert { db := sqlite, new_row_id := n })) ∧
    (Action.fromCode code = Action.SQLITE_DELETE →
      passedCase (call_boxed_closure hook sqlite code db_str tbl_str o n) =
        some (PreUpdateCase.Delete { db := sqlite, old_row_id := o })) ∧
    (Action.fromCode code = Action.SQLITE_UPDATE →
      passedCase (call_boxed_closure hook sqlite code db_str tbl_str o n) =
        some (PreUpdateCase.Update { db := sqlite, old_row_id := o }
          { db := sqlite, new_row_id := n })) := by
  refine ⟨fun h => ?_, fun h => ?_, fun h => ?_⟩
  · simp only [call_boxed_closure, h, preupdateCaseOfAction,
      str_from_utf8_ok _ hdb, str_from_utf8_ok _ htbl]
    cases hook Action.SQLITE_INSERT db_str tbl_str
        (PreUpdateCase.Insert { db := sqlite, new_row_id := n }) <;> rfl
  · simp only [call_boxed_closure, h, preupdateCaseOfAction,
      str_from_utf8_ok _ hdb, str_from_utf8_ok _ htbl]
    cases hook Action.SQLITE_DELETE db_str tbl_str
        (PreUpdateCase.Delete { db := sqlite, old_row_id := o }) <;> rfl
  · simp only [call_boxed_closure, h, preupdateCaseOfAction,
      str_from_utf8_ok _ hdb, str_from_utf8_ok _ htbl]
    cases hook Action.SQLITE_UPDATE db_str tbl_str
        (PreUpdateCase.Update { db := sqlite, old_row_id := o }
          { db := sqlite, new_row_id := n }) <;> rfl

/-- Witness for C2 at the three recognized action codes with concrete
arguments. -/
theorem trampoline_case_matches_action_witness :
    passedCase (call_boxed_closure hookOk 4 18 [100] [116] 1 2) =
      some (PreUpdateCase.Insert { db := 4, new_row_id := 2 }) ∧
    passedCase (call_boxed_closure hookOk 4 9 [100] [116] 1 2) =
      some (PreUpdateCase.Delete { db := 4, old_row_id := 1 }) ∧
    passedCase (call_boxed_closure hookOk 4 23 [100] [116] 1 2) =
      some (PreUpdateCase.Update { db := 4, old_row_id := 1 }
        { db := 4, new_row_id := 2 }) :=
  ⟨(trampoline_case_matches_action hookOk 4 18 [100] [116] 1 2
      (by decide) (by decide)).1 (by decide),
   (trampoline_case_matches_action hookOk 4 9 [100] [116] 1 2
      (by decide) (by decide)).2.1 (by decide),
   (trampoline_case_matches_action hookOk 4 23 [100] [116] 1 2
      (by decide) (by decide)).2.2 (by decide)⟩

/-- C3 counterexample: at action code 18 with invalid-UTF-8 database
name bytes `[0xFF]`, the trampoline does NOT terminate abnormally:
the `.expect("illegal db name")` panic is raised inside
`catch_unwind`, is caught there, and the trampoline returns normally
to the engine (`Except.ok`) without invoking the closure — refuting
the claim that a decode failure terminates abnormally rather than
being converted into a normal return. -/
theorem trampoline_decode_failure_counterexample :
    utf8Valid [0xFF] = false ∧
    call_boxed_closure hookOk 4 18 [0xFF] [116] 1 2 =
      Except.ok { invoked := none, caught := some "illegal db name" } := by
  constructor
  · decide
  · rfl

/-- C3 amended: for every trampoline invocation with a recognized
action code in which the database-name or table-name bytes fail UTF-8
decoding, the resulting `.expect` panic is raised inside the
trampoline's `catch_unwind` region and caught there: the closure is
never invoked, no decode error is delivered to it, and the trampoline
returns normally to the engine. -/
theorem trampoline_decode_failure_caught
    (hook : Action → List Nat → List Nat → PreUpdateCase → Except String Unit)
    (sqlite : Nat) (code : Int) (db_str tbl_str : List Nat) (o n : Int)
    (hact : Action.fromCode code ≠ Action.UNKNOWN)
    (hbad : utf8Valid db_str = false ∨ utf8Valid tbl_str = false) :
    call_boxed_closure hook sqlite code db_str tbl_str o n =
      Except.ok { invoked := none,
                  caught := some (if utf8Valid db_str then "illegal table name"
                    else "illegal db name") } := by
  obtain ⟨pc, hpc⟩ :
      ∃ pc, preupdateCaseOfAction (Action.fromCode code) sqlite o n = some pc := by
    cases hA : Action.fromCode code
    · exact absurd hA hact
    all_goals exact ⟨_, rfl⟩
  cases hdb : utf8Valid db_str with
  | false =>
    simp only [call_boxed_closure, hpc, str_from_utf8_err _ hdb, hdb]
    rfl
  | true =>
    have htbl : utf8Valid tbl_str = false := by
      rcases hbad with h | h
      · rw [hdb] at h; cases h
      · exact h
    simp only [call_boxed_closure, hpc, str_from_utf8_ok _ hdb,
      str_from_utf8_err _ htbl, hdb]
    rfl

/-- Witness for the amended C3 at a concrete invalid database name. -/
theorem trampoline_decode_failure_caught_witness :
    call_boxed_closure hookOk 4 18 [255] [116] 1 2 =
      Except.ok { invoked := none,
                  caught := some (if utf8Valid [255] then "illegal table name"
                    else "illegal db name") } :=
  trampoline_decode_failure_caught hookOk 4 18 [255] [116] 1 2
    (by decide) (Or.inl (by decide))

/-- C4: any panic raised inside the registered closure is caught by
`catch_unwind` at the trampoline boundary and suppressed: the
trampoline still returns normally to the engine (`Except.ok`), with
the panic recorded only as caught-and-discarded. -/
theorem trampoline_catches_closure_panic
    (hook : Action → List Nat → List Nat → PreUpdateCase → Except String Unit)
    (sqlite : Nat) (code : Int) (db_str tbl_str : List Nat) (o n : Int)
    (pc : PreUpdateCase) (p : String)
    (hpc : preupdateCaseOfAction (Action.fromCode code) sqlite o n = some pc)
    (hdb : utf8Valid db_str = true) (htbl : utf8Valid tbl_str = true)
    (hp : hook (Action.fromCode code) db_str tbl_str pc = Except.error p) :
    call_boxed_closure hook sqlite code db_str tbl_str o n =
      Except.ok { invoked := some (Action.fromCode code, db_str, tbl_str, pc),
                  caught := some p } := by
  simp only [call_boxed_closure, hpc, str_from_utf8_ok _ hdb,
    str_from_utf8_ok _ htbl, hp]

/-- Witness for C4: a closure that always panics with "boom" is
invoked, its panic is caught, and the trampoline returns normally. -/
theorem trampoline_catches_closure_panic_witness :
    call_boxed_closure hookBoom 4 18 [100] [116] 1 2 =
      Except.ok { invoked := some (Action.fromCode 18, [100], [116],
                    PreUpdateCase.Insert { db := 4, new_row_id := 2 }),
                  caught := some "boom" } :=
  trampoline_catches_closure_panic hookBoom 4 18 [100] [116] 1 2
    (PreUpdateCase.Insert { db := 4, new_row_id := 2 }) "boom"
    (by decide) (by decide) (by decide) rfl

/-- C5: for every trampoline invocation whose native action code is
unrecognized, the `_ => todo!()` arm runs before `catch_unwind` and
its panic escapes the `extern "C"` boundary: the outcome is fatal
(`Except.error`), the closure is never invoked, and no valid variant
is silently fabricated. -/
theorem trampoline_unknown_action_fatal
    (hook : Action → List Nat → List Nat → PreUpdateCase → Except String Unit)
    (sqlite : Nat) (code : Int) (db_str tbl_str : List Nat) (o n : Int)
    (h : Action.fromCode code = Action.UNKNOWN) :
    call_boxed_closure hook sqlite code db_str tbl_str o n =
      Except.error "not yet implemented" := by
  simp [call_boxed_closure, preupdateCaseOfAction, h]

/-- Witness for C5 at the unrecognized action code 0. -/
theorem trampoline_unknown_action_fatal_witness :
    call_boxed_closure hookOk 4 0 [100] [116] 1 2 =
      Except.error "not yet implemented" :=
  trampoline_unknown_action_fatal hookOk 4 0 [100] [116] 1 2 (by decide)

/-- C6: removing the hook (`hook = none`) on a connection with no
closure currently registered (no engine context, no stored release
function) performs no release call and leaves the release-function
slot absent. -/
theorem remove_when_unset_no_release
    (c : InnerConnection) (tag : Nat)
    (hctx : c.engine_ctx = none) (_hfree : c.free_preupdate_hook = none) :
    (c.preupdate_hook none tag).2 = [] ∧
    (c.preupdate_hook none tag).1.free_preupdate_hook = none := by
  simp [InnerConnection.preupdate_hook, hctx]

/-- Witness for C6 at the concrete Unset state. -/
theorem remove_when_unset_no_release_witness :
    (InnerConnection.preupdate_hook ⟨none, none, none⟩ none 4).2 = [] ∧
    (InnerConnection.preupdate_hook ⟨none, none, none⟩ none 4).1.free_preupdate_hook
      = none :=
  remove_when_unset_no_release ⟨none, none, none⟩ 4 rfl rfl

/-- C7: `remove_preupdate_hook` is the registration operation applied
to no closure, for every choice of the concrete closure type's tag:
it installs a null trampoline and null context with the engine,
releases the previous context (if any) via the previously stored
release function, and leaves the registry Unset. -/
theorem remove_equiv_register_none (c : InnerConnection) (tag : Nat) :
    c.remove_preupdate_hook = c.preupdate_hook none tag ∧
    c.remove_preupdate_hook.1.engine_trampoline = none ∧
    c.remove_preupdate_hook.1.engine_ctx = none ∧
    c.remove_preupdate_hook.1.free_preupdate_hook = none ∧
    c.remove_preupdate_hook.2 =
      (match c.engine_ctx, c.free_preupdate_hook with
        | some p, some t => [(t, p)]
        | _, _ => []) := by
  obtain ⟨et, ec, fp⟩ := c
  cases ec <;> cases fp <;>
    simp [InnerConnection.remove_preupdate_hook, InnerConnection.preupdate_hook]

/-- C8: both row-id getters return exactly the 64-bit identifier
captured at construction, make no engine call (empty call trace), and
their result is independent of the engine oracle. -/
theorem row_id_getters_return_captured_no_engine_call
    (e e2 : Engine) (db : Nat) (rid : Int) :
    PreUpdateOldValueAccessor.get_old_row_id e ⟨db, rid⟩ = (rid, []) ∧
    PreUpdateNewValueAccessor.get_new_row_id e ⟨db, rid⟩ = (rid, []) ∧
    PreUpdateOldValueAccessor.get_old_row_id e ⟨db, rid⟩ =
      PreUpdateOldValueAccessor.get_old_row_id e2 ⟨db, rid⟩ ∧
    PreUpdateNewValueAccessor.get_new_row_id e ⟨db, rid⟩ =
      PreUpdateNewValueAccessor.get_new_row_id e2 ⟨db, rid⟩ :=
  ⟨rfl, rfl, rfl, rfl⟩

/-- C9: for every index `i` — with no range hypothesis, so in
particular for out-of-range and negative `i` — both column-value
operations forward `i` unchanged to the engine's old/new value query
as their single engine call and wrap whatever the engine returns;
there is no bounds check or guarded error branch. -/
theorem column_value_forwards_index_unchecked
    (e : Engine) (a : PreUpdateOldValueAccessor)
    (b : PreUpdateNewValueAccessor) (i : Int) :
    PreUpdateOldValueAccessor.get_old_column_value e a i =
      (ValueRef.from_value (e.preupdate_old a.db i), [EngineCall.oldValue a.db i]) ∧
    PreUpdateNewValueAccessor.get_new_column_value e b i =
      (ValueRef.from_value (e.preupdate_new b.db i), [EngineCall.newValue b.db i]) :=
  ⟨rfl, rfl⟩

/-- C10: the conversion `From<PreUpdateCase> for Action` maps the
`Insert` variant to the Insert action, `Delete` to Delete and
`Update` to Update, for every pair of contained accessors. -/
theorem action_from_case_matches_variant
    (na : PreUpdateNewValueAccessor) (oa : PreUpdateOldValueAccessor) :
    Action.fromPreUpdateCase (PreUpdateCase.Insert na) = Action.SQLITE_INSERT ∧
    Action.fromPreUpdateCase (PreUpdateCase.Delete oa) = Action.SQLITE_DELETE ∧
    Action.fromPreUpdateCase (PreUpdateCase.Update oa na) = Action.SQLITE_UPDATE :=
  ⟨rfl, rfl, rfl⟩

end Rusqlite
